import Mathlib

/-!
Verification of the command execution lifecycle framework of the
fabric-cli repository (`cmd/commands/channel/channel.go` and the
chaincode-lifecycle commit command exercised by its test suite).

The Go code is shallowly embedded: Go `error` values become their
message strings, fallible calls return `Except Err`, output streams
and log lines become accumulated values, and the one background
goroutine (`closeOnExit`) becomes a function of the received signal
producing the sequential trace of events it performs.
-/

namespace FabricCLI

/-- Go `error` values are identified with their message strings. -/
abbrev Err := String

/-- View of `Except` as a sum, for deciding equality. -/
def exceptToSum {α β : Type} (e : Except α β) : α ⊕ β :=
  match e with
  | Except.error a => Sum.inl a
  | Except.ok b => Sum.inr b

instance {α β : Type} [DecidableEq α] [DecidableEq β] : DecidableEq (Except α β) := fun a b =>
  decidable_of_iff (exceptToSum a = exceptToSum b) (by cases a <;> cases b <;> simp [exceptToSum])

/-- A named network context (`environment.Context`); the commit command
only tests presence of the current context, so a single placeholder
field suffices. -/
structure Context where
  channel : String := ""
  deriving DecidableEq, Repr

/-- `environment.Config`: mapping from context name to `Context`,
plus the designated current-context name. -/
structure Config where
  contexts : List (String × Context)
  currentContext : String
  deriving DecidableEq, Repr

/-- `environment.Settings`: the loaded configuration (possibly absent)
and the output stream of the command, modelled as the accumulated output. -/
structure Settings where
  config : Option Config
  out : String := ""
  deriving DecidableEq, Repr

/-- The network session handle held by a `Factory` (`fabsdk.FabricSDK`):
an identity plus a closed flag. -/
structure SessionHandle where
  id : Nat
  closed : Bool := false
  deriving DecidableEq, Repr

/-- The `ResourceManagement` capability client. `sessionId` records the
session handle it was derived from; `lifecycleCommitCC` is the injected
outcome of the one remote operation the commit command performs
(transaction id on success, error otherwise), mirroring the mock client
of the test suite. -/
structure ResourceManagement where
  sessionId : Nat := 0
  lifecycleCommitCC : Except Err String
  deriving DecidableEq, Repr

/-- Modelled from the spec: the `fabric.Factory` implementation is not
part of the embedded sources (only its interface and callers are).
Per spec 3/4.1 it holds the configuration it was built from and an
exclusively-owned, lazily-created, cached session handle.
`constructErr` injects an underlying session-construction failure
(network/identity errors surfaced verbatim); `commitOutcome` injects the
network behaviour seen by clients derived from the session; `nextId`
numbers freshly opened sessions so reuse is observable. -/
structure FactoryState where
  config : Option Config
  session : Option SessionHandle := none
  constructErr : Option Err := none
  commitOutcome : Except Err String := Except.ok ""
  nextId : Nat := 0
  deriving DecidableEq, Repr

/-- Modelled from the spec: `Factory.SDK()` (spec 4.1/6). If a session
handle is cached it is returned as-is; otherwise one is constructed from
the current configuration context and cached. Errors: configuration
missing, current context unset, current context not in the mapping, or
underlying construction failure. The returned `Bool` records whether a
new session was opened by this call. -/
def FactoryState.sdk (f : FactoryState) : Except Err (SessionHandle × FactoryState × Bool) :=
  match f.session with
  | some s => Except.ok (s, f, false)
  | none =>
    match f.config with
    | none => Except.error "configuration missing"
    | some cfg =>
      if cfg.currentContext = "" then Except.error "current context not set"
      else
        match cfg.contexts.lookup cfg.currentContext with
        | none => Except.error ("context not found: " ++ cfg.currentContext)
        | some _ =>
          match f.constructErr with
          | some e => Except.error e
          | none =>
            let s : SessionHandle := { id := f.nextId, closed := false }
            Except.ok (s, { f with session := some s, nextId := f.nextId + 1 }, true)

/-- Modelled from the spec: `Factory.ResourceManagement()` (spec 4.1):
ensure the cached session handle exists (constructing it at most once)
and derive the resource-management client from it. -/
def FactoryState.resourceManagement (f : FactoryState) :
    Except Err (ResourceManagement × FactoryState) :=
  match f.sdk with
  | Except.error e => Except.error e
  | Except.ok (s, f1, _) =>
      Except.ok ({ sessionId := s.id, lifecycleCommitCC := f1.commitOutcome }, f1)

/-- `BaseCommand` of `channel.go`: Settings plus the Factory and the
derived ResourceManagement client, both absent until `Complete` (or a
test) populates them. -/
structure BaseCommand where
  settings : Settings
  factory : Option FactoryState := none
  resourceManagement : Option ResourceManagement := none
  deriving DecidableEq, Repr

/-- Modelled from the spec: `fabric.NewFactory(config)` is not in the
embedded sources; per spec 4.2 it builds a Factory bound to
`Settings.Config` and may fail. The environment record carries the
injected outcome. -/
structure FabricOps where
  newFactory : Option Config → Except Err FactoryState

/-- Result of `BaseCommand.Complete`: the updated command state, the
returned error (if any), and whether the shutdown watcher goroutine was
started (`go c.closeOnExit()`). -/
structure CompleteResult where
  cmd : BaseCommand
  err : Option Err
  watcherStarted : Bool
  deriving DecidableEq, Repr

/-- `BaseCommand.Complete` from `channel.go`: build a Factory from
`Settings.Config` only when none was pre-injected; derive the
ResourceManagement client from the Factory; start the shutdown watcher;
return the first error encountered, aborting the rest. -/
def BaseCommand.complete (ops : FabricOps) (c : BaseCommand) : CompleteResult :=
  match c.factory with
  | some f =>
    match f.resourceManagement with
    | Except.error e => { cmd := { c with factory := some f }, err := some e, watcherStarted := false }
    | Except.ok (rm, f1) =>
      { cmd := { c with factory := some f1, resourceManagement := some rm },
        err := none, watcherStarted := true }
  | none =>
    match ops.newFactory c.settings.config with
    | Except.error e => { cmd := c, err := some e, watcherStarted := false }
    | Except.ok f =>
      match f.resourceManagement with
      | Except.error e => { cmd := { c with factory := some f }, err := some e, watcherStarted := false }
      | Except.ok (rm, f1) =>
        { cmd := { c with factory := some f1, resourceManagement := some rm },
          err := none, watcherStarted := true }

/-- Decimal digit value of a character, as `strconv` accepts digits. -/
def digitVal (c : Char) : Option Nat :=
  if c.isDigit then some (c.toNat - 48) else none

/-- Parse a non-empty all-digit string of characters to a natural number. -/
def parseNatDigits (cs : List Char) : Option Nat :=
  if cs.isEmpty then none
  else cs.foldlM (fun n c => (digitVal c).map fun d => n * 10 + d) 0

/-- Modelled from the spec: the commit command parses its sequence text
as a (signed, decimal) integer, per spec 4.2 rule "sequence parses as an
integer"; failure is reported as `invalid sequence: <cause>`. -/
def parseInt (s : String) : Option Int :=
  match s.toList with
  | [] => none
  | c :: rest =>
    if c = '-' then (parseNatDigits rest).map fun n => -(n : Int)
    else if c = '+' then (parseNatDigits rest).map fun n => (n : Int)
    else (parseNatDigits (c :: rest)).map fun n => (n : Int)

/-- The single-quote character, for building the confirmation line. -/
def squote : String := String.singleton (Char.ofNat 39)

/-- Modelled from the spec: the chaincode-lifecycle `CommitCommand`
(its Go source is outside the embedded files; only its test suite is
embedded). It embeds the base command state plus the argument fields
`Name`, `Version`, `Sequence` (numeric sequence as text) and `Peers`
(spec 3, 4.2). `resourceManagement` is the capability client populated
by `Complete` (or injected by a test) before `Run`. -/
structure CommitCommand where
  settings : Settings
  factory : Option FactoryState := none
  resourceManagement : ResourceManagement := { lifecycleCommitCC := Except.ok "" }
  name : String := ""
  version : String := ""
  sequence : String := ""
  peers : List String := []
  deriving DecidableEq, Repr

/-- Modelled from the spec: `CommitCommand.Validate` (spec 4.2), the
short-circuiting ordered rule chain of the commit command; returns the
message of the first violated rule, `none` when all rules pass. -/
def CommitCommand.validate (c : CommitCommand) : Option Err :=
  if c.name = "" then some "chaincode name not specified"
  else if c.version = "" then some "chaincode version not specified"
  else if c.sequence = "" then some "sequence not specified"
  else
    match parseInt c.sequence with
    | none => some ("invalid sequence: cannot parse " ++ c.sequence)
    | some n =>
      if n ≤ 0 then some "sequence must be greater than 0"
      else if c.peers.isEmpty then some "at least one peer must be specified"
      else none

/-- Modelled from the spec: `Config.GetCurrentContext` — resolution of
the designated current context, failing explicitly when it is unset or
absent from the mapping (spec 3, 7). -/
def Config.getCurrentContext (cfg : Config) : Except Err Context :=
  if cfg.currentContext = "" then Except.error "current context not set"
  else
    match cfg.contexts.lookup cfg.currentContext with
    | none => Except.error ("context not found: " ++ cfg.currentContext)
    | some ctx => Except.ok ctx

/-- Outcome of one `Run` invocation: the returned error (if any), what
was written to the output stream of the command, and how many capability-
client operations were invoked. -/
structure RunOutcome where
  err : Option Err
  output : String
  clientCalls : Nat
  deriving DecidableEq, Repr

/-- Modelled from the spec: `CommitCommand.Run` (spec 4.2, 4.3): resolve
the current context (failing before any client call when it is unset or
absent), perform exactly one `LifecycleCommitCC` operation through the
resource-management client, return its error verbatim on failure, and on
success write exactly one confirmation line
`successfully committed chaincode <name>` (the name in single quotes) plus newline. -/
def CommitCommand.run (c : CommitCommand) : RunOutcome :=
  match c.settings.config with
  | none => { err := some "no configuration", output := "", clientCalls := 0 }
  | some cfg =>
    match cfg.getCurrentContext with
    | Except.error e => { err := some e, output := "", clientCalls := 0 }
    | Except.ok _ =>
      match c.resourceManagement.lifecycleCommitCC with
      | Except.error e => { err := some e, output := "", clientCalls := 1 }
      | Except.ok _ =>
        { err := none,
          output := "successfully committed chaincode " ++ squote ++ c.name ++ squote ++ "\n",
          clientCalls := 1 }

/-- Marking a session handle closed (`sdk.Close()` on the handle). -/
def SessionHandle.close (s : SessionHandle) : SessionHandle :=
  { s with closed := true }

/-- Modelled from the spec: releasing the session handle of the Factory; a
no-op when no session handle was ever created, and closing an
already-closed handle simply leaves it closed (spec 4.3 idempotence
requirement). -/
def FactoryState.closeSession (f : FactoryState) : FactoryState :=
  match f.session with
  | none => f
  | some s => { f with session := some s.close }

/-- Observable events of the shutdown watcher: log lines written with
`fmt.Println` and the closing of an SDK session handle. -/
inductive Event where
  | logLine (s : String)
  | sdkClose (id : Nat)
  deriving DecidableEq, Repr

/-- `BaseCommand.closeOnExit` from `channel.go`, sequentialized: the
watcher prints `awaiting signal...`, blocks until a signal arrives (the
received signal is the argument `sig`), prints the signal and
`... exiting`, then, if a Factory is present, obtains the session handle
via `Factory.SDK()` — printing the error and stopping if that fails —
and otherwise prints `Closing SDK` and closes the handle. Returns the
event trace and the updated command state; it never returns an error. -/
def BaseCommand.closeOnExit (sig : String) (c : BaseCommand) : List Event × BaseCommand :=
  let pre := [Event.logLine "awaiting signal...", Event.logLine sig, Event.logLine "... exiting"]
  match c.factory with
  | none => (pre, c)
  | some f =>
    match f.sdk with
    | Except.error e => (pre ++ [Event.logLine e], c)
    | Except.ok (s, f1, _) =>
      (pre ++ [Event.logLine "Closing SDK", Event.sdkClose s.id],
       { c with factory := some f1.closeSession })

/-- `sub` occurs as a contiguous substring of `s`. -/
def strContains (s sub : String) : Prop :=
  sub.toList <:+: s.toList

/-- Whether an event is the closing of an SDK session handle. -/
def Event.isClose : Event → Bool
  | Event.sdkClose _ => true
  | Event.logLine _ => false

/-- Number of session-handle closes in a trace. -/
def countCloses (tr : List Event) : Nat :=
  (tr.filter Event.isClose).length

/-- The context mapping of the test suite: one context named `foo`. -/
def cfgFoo : Config :=
  { contexts := [("foo", {})], currentContext := "foo" }

/-- Settings holding the `foo` configuration. -/
def settingsFoo : Settings :=
  { config := some cfgFoo }

/-- A factory bound to the `foo` configuration, no session opened yet. -/
def factoryFoo : FactoryState :=
  { config := some cfgFoo }

/-- A factory whose underlying session construction fails. -/
def factoryBroken : FactoryState :=
  { config := some cfgFoo, constructErr := some "construction error" }

/-- A resource-management client whose commit succeeds. -/
def rmOk : ResourceManagement :=
  { lifecycleCommitCC := Except.ok "txid" }

/-- A resource-management client whose commit fails with `commit error`,
as the mock of the failing test. -/
def rmBad : ResourceManagement :=
  { lifecycleCommitCC := Except.error "commit error" }

/-- The commit command of the test suite with all arguments set. -/
def commitFull : CommitCommand :=
  { settings := settingsFoo, resourceManagement := rmOk,
    name := "mycc", version := "0.0.0", sequence := "1", peers := ["peer1"] }

/-- A factory bound to the `foo` configuration whose session handle is
already cached (the state a successful `Complete` leaves behind). -/
def factoryCached : FactoryState :=
  { config := some cfgFoo, session := some { id := 0 }, nextId := 1 }

/-- A base command as left by a successful `Complete`. -/
def baseCached : BaseCommand :=
  { settings := settingsFoo, factory := some factoryCached }

/-- A base command with a pre-injected factory, before `Complete`. -/
def baseFoo : BaseCommand :=
  { settings := settingsFoo, factory := some factoryFoo }

/-- A fabric environment whose factory construction always fails. -/
def opsBoom : FabricOps :=
  { newFactory := fun _ => Except.error "factory construction error" }

end FabricCLI

namespace FabricCLI

/-- Two strings whose first characters differ stay different after
appending anything to the first. -/
theorem append_ne_of_head (p s lit : String) (hpn : p.data ≠ [])
    (hp : p.data.head? ≠ lit.data.head?) : p ++ s ≠ lit := by
  intro h
  apply hp
  have hd := congrArg String.data h
  rw [String.data_append] at hd
  rw [← hd]
  cases hpd : p.data with
  | nil => exact absurd hpd hpn
  | cons ch t => rfl

/-- C1: `CommitCommand.Validate` checks its rules in the fixed order
name, version, sequence non-empty, sequence parses, sequence positive,
peers non-empty; each error message is produced exactly when its rule is
the first violated one, the parse failure message contains
`invalid sequence`, and all rules passing yields no error. -/
theorem commit_validate_first_violated_rule (c : CommitCommand) :
    (c.validate = some "chaincode name not specified" ↔ c.name = "") ∧
    (c.validate = some "chaincode version not specified" ↔
      c.name ≠ "" ∧ c.version = "") ∧
    (c.validate = some "sequence not specified" ↔
      c.name ≠ "" ∧ c.version ≠ "" ∧ c.sequence = "") ∧
    (c.name ≠ "" → c.version ≠ "" → c.sequence ≠ "" → parseInt c.sequence = none →
      ∃ msg, c.validate = some msg ∧ strContains msg "invalid sequence") ∧
    (c.validate = some "sequence must be greater than 0" ↔
      c.name ≠ "" ∧ c.version ≠ "" ∧ ∃ n, parseInt c.sequence = some n ∧ n ≤ 0) ∧
    (c.validate = some "at least one peer must be specified" ↔
      c.name ≠ "" ∧ c.version ≠ "" ∧
        (∃ n, parseInt c.sequence = some n ∧ 0 < n) ∧ c.peers = []) ∧
    (c.validate = none ↔
      c.name ≠ "" ∧ c.version ≠ "" ∧
        (∃ n, parseInt c.sequence = some n ∧ 0 < n) ∧ c.peers ≠ []) := by
  have hseq : ∀ n : Int, parseInt c.sequence = some n → c.sequence ≠ "" := by
    intro n hn hemp
    rw [hemp] at hn
    simp [parseInt] at hn
  by_cases h1 : c.name = ""
  · simp [CommitCommand.validate, h1]
  by_cases h2 : c.version = ""
  · simp [CommitCommand.validate, h1, h2]
  by_cases h3 : c.sequence = ""
  · simp [CommitCommand.validate, h1, h2, h3, parseInt]
  cases hp : parseInt c.sequence with
  | none =>
    have hv : c.validate = some ("invalid sequence: cannot parse " ++ c.sequence) := by
      simp [CommitCommand.validate, h1, h2, h3, hp]
    have hcontain : strContains ("invalid sequence: cannot parse " ++ c.sequence)
        "invalid sequence" := by
      show _ <:+: (("invalid sequence: cannot parse " : String) ++ c.sequence).toList
      rw [show (("invalid sequence: cannot parse " : String) ++ c.sequence).toList
            = "invalid sequence: cannot parse ".toList ++ c.sequence.toList
          from String.data_append ..]
      exact List.IsPrefix.isInfix
        (List.IsPrefix.trans (by decide) (List.prefix_append _ _))
    have hne1 := append_ne_of_head "invalid sequence: cannot parse " c.sequence
      "chaincode name not specified" (by decide) (by decide)
    have hne2 := append_ne_of_head "invalid sequence: cannot parse " c.sequence
      "chaincode version not specified" (by decide) (by decide)
    have hne3 := append_ne_of_head "invalid sequence: cannot parse " c.sequence
      "sequence not specified" (by decide) (by decide)
    have hne4 := append_ne_of_head "invalid sequence: cannot parse " c.sequence
      "sequence must be greater than 0" (by decide) (by decide)
    have hne5 := append_ne_of_head "invalid sequence: cannot parse " c.sequence
      "at least one peer must be specified" (by decide) (by decide)
    refine ⟨?_, ?_, ?_, fun _ _ _ _ => ⟨_, hv, hcontain⟩, ?_, ?_, ?_⟩ <;>
      rw [hv] <;> simp [h1, h2, h3, hp, hne1, hne2, hne3, hne4, hne5]
  | some n =>
    by_cases hn : n ≤ 0
    · refine ⟨?_, ?_, ?_, ?_, ?_, ?_, ?_⟩ <;>
        simp [CommitCommand.validate, h1, h2, h3, hp, hn] <;>
      omega
    by_cases hpeers : c.peers = []
    · refine ⟨?_, ?_, ?_, ?_, ?_, ?_, ?_⟩ <;>
        simp [CommitCommand.validate, h1, h2, h3, hp, hn, hpeers] <;>
      omega
    · refine ⟨?_, ?_, ?_, ?_, ?_, ?_, ?_⟩ <;>
        simp [CommitCommand.validate, h1, h2, h3, hp, hn, hpeers] <;>
      omega

/-- Witness for C1 at the unparsable sequence `xxx` of the test suite. -/
theorem commit_validate_first_violated_rule_witness :
    ∃ msg, ({ settings := settingsFoo, resourceManagement := rmOk, name := "mycc",
              version := "0.0.0", sequence := "xxx",
              peers := ["peer1"] } : CommitCommand).validate = some msg ∧
      strContains msg "invalid sequence" :=
  (commit_validate_first_violated_rule _).2.2.2.1
    (by decide) (by decide) (by decide) (by decide)

/-- C2: `BaseCommand.Complete` builds a Factory from `Settings.Config`
only when none was pre-injected (a pre-injected Factory makes the result
independent of the construction environment), derives the
ResourceManagement client from the Factory, starts the shutdown watcher
exactly on success, and returns any construction or derivation error,
leaving the watcher unstarted. -/
theorem complete_lifecycle (ops ops2 : FabricOps) (c : BaseCommand) :
    (∀ f, c.factory = some f → c.complete ops = c.complete ops2) ∧
    (c.factory = none → ∀ e, ops.newFactory c.settings.config = Except.error e →
      c.complete ops = { cmd := c, err := some e, watcherStarted := false }) ∧
    (∀ f e, c.factory = some f → f.resourceManagement = Except.error e →
      c.complete ops =
        { cmd := { c with factory := some f }, err := some e, watcherStarted := false }) ∧
    (∀ f rm f1, c.factory = some f → f.resourceManagement = Except.ok (rm, f1) →
      c.complete ops =
        { cmd := { c with factory := some f1, resourceManagement := some rm },
          err := none, watcherStarted := true }) ∧
    (c.factory = none → ∀ f rm f1, ops.newFactory c.settings.config = Except.ok f →
      f.resourceManagement = Except.ok (rm, f1) →
      c.complete ops =
        { cmd := { c with factory := some f1, resourceManagement := some rm },
          err := none, watcherStarted := true }) := by
  refine ⟨?_, ?_, ?_, ?_, ?_⟩
  · intro f hf
    cases hres : f.resourceManagement with
    | error e => simp [BaseCommand.complete, hf, hres]
    | ok p =>
      obtain ⟨rm, f1⟩ := p
      simp [BaseCommand.complete, hf, hres]
  · intro hf e he
    simp [BaseCommand.complete, hf, he]
  · intro f e hf hres
    simp [BaseCommand.complete, hf, hres]
  · intro f rm f1 hf hres
    simp [BaseCommand.complete, hf, hres]
  · intro hf f rm f1 hn hres
    simp [BaseCommand.complete, hf, hn, hres]

/-- Witness for C2: completing a command with a pre-injected factory
bound to the `foo` configuration derives the client, caches the session
and starts the watcher. -/
theorem complete_lifecycle_witness :
    baseFoo.complete opsBoom =
      { cmd := { settings := settingsFoo, factory := some factoryCached,
                 resourceManagement := some { sessionId := 0, lifecycleCommitCC := Except.ok "" } },
        err := none, watcherStarted := true } := by
  have h := (complete_lifecycle opsBoom opsBoom baseFoo).2.2.2.1 factoryFoo _ _ rfl rfl
  exact h.trans (by decide)

/-- C10: a failed `Complete` (construction or derivation error) starts
no shutdown watcher. -/
theorem complete_error_leaves_no_watcher (ops : FabricOps) (c : BaseCommand)
    (h : (c.complete ops).err.isSome) : (c.complete ops).watcherStarted = false := by
  cases hf : c.factory with
  | some f =>
    cases hres : f.resourceManagement with
    | error e => simp [BaseCommand.complete, hf, hres]
    | ok p =>
      obtain ⟨rm, f1⟩ := p
      simp [BaseCommand.complete, hf, hres] at h
  | none =>
    cases hn : ops.newFactory c.settings.config with
    | error e => simp [BaseCommand.complete, hf, hn]
    | ok f =>
      cases hres : f.resourceManagement with
      | error e => simp [BaseCommand.complete, hf, hn, hres]
      | ok p =>
        obtain ⟨rm, f1⟩ := p
        simp [BaseCommand.complete, hf, hn, hres] at h

/-- Witness for C10: a failing factory construction yields an error from
`Complete` and no watcher. -/
theorem complete_error_leaves_no_watcher_witness :
    (({ settings := { config := none } } : BaseCommand).complete opsBoom).watcherStarted
      = false :=
  complete_error_leaves_no_watcher opsBoom { settings := { config := none } } (by decide)

/-- C6: `Validate` depends only on the argument fields — replacing the
factory by any other (including an erroring one) leaves its result
unchanged — and a fully valid argument set passes validation whatever
the factory is. -/
theorem validate_ignores_factory (c : CommitCommand) (fac : Option FactoryState) :
    ({ c with factory := fac } : CommitCommand).validate = c.validate ∧
    (c.name ≠ "" → c.version ≠ "" →
      (∃ n, parseInt c.sequence = some n ∧ 0 < n) → c.peers ≠ [] →
      ({ c with factory := fac } : CommitCommand).validate = none) := by
  refine ⟨rfl, ?_⟩
  intro hn hv hs hp
  obtain ⟨n, hps, hpos⟩ := hs
  have hs0 : c.sequence ≠ "" := by
    intro h0
    rw [h0] at hps
    simp [parseInt] at hps
  have hle : ¬ n ≤ 0 := by omega
  simp [CommitCommand.validate, hn, hv, hs0, hps, hle, hp]

/-- Witness for C6: the fully valid commit arguments pass validation
with a factory whose session construction fails. -/
theorem validate_ignores_factory_witness :
    ({ commitFull with factory := some factoryBroken } : CommitCommand).validate = none ∧
    factoryBroken.resourceManagement = Except.error "construction error" :=
  ⟨(validate_ignores_factory commitFull (some factoryBroken)).2
      (by decide) (by decide) ⟨1, by decide, by decide⟩ (by decide),
    by decide⟩

/-- C3: when the current context resolves and the client commit
operation succeeds, `Run` returns no error and writes exactly the one
confirmation line `successfully committed chaincode <name>` (the name in single quotes) with a
trailing newline (and nothing else), invoking the client once. -/
theorem run_success_confirmation (c : CommitCommand) (cfg : Config) (ctx : Context)
    (tx : String)
    (h1 : c.settings.config = some cfg)
    (h2 : cfg.getCurrentContext = Except.ok ctx)
    (h3 : c.resourceManagement.lifecycleCommitCC = Except.ok tx) :
    c.run = { err := none,
              output := "successfully committed chaincode " ++ squote ++ c.name ++ squote ++ "\n",
              clientCalls := 1 } := by
  simp [CommitCommand.run, h1, h2, h3]

/-- Witness for C3 at the test scenario: context `foo`, name `mycc`,
succeeding client. -/
theorem run_success_confirmation_witness :
    commitFull.run =
      { err := none,
        output := "successfully committed chaincode " ++ squote ++ "mycc" ++ squote ++ "\n",
        clientCalls := 1 } := by
  have h := run_success_confirmation commitFull cfgFoo {} "txid" rfl rfl rfl
  exact h.trans (by decide)

/-- C4: when the client commit operation fails, `Run` returns an error
whose message contains the underlying client error message, and the
operation is invoked exactly once (no retry). -/
theorem run_error_contains_cause (c : CommitCommand) (cfg : Config) (ctx : Context)
    (e : Err)
    (h1 : c.settings.config = some cfg)
    (h2 : cfg.getCurrentContext = Except.ok ctx)
    (h3 : c.resourceManagement.lifecycleCommitCC = Except.error e) :
    ∃ msg, c.run.err = some msg ∧ strContains msg e ∧ c.run.clientCalls = 1 := by
  refine ⟨e, ?_, List.infix_rfl, ?_⟩ <;> simp [CommitCommand.run, h1, h2, h3]

/-- Witness for C4 at the failing test scenario: the client error
`commit error` is contained in the error `Run` returns. -/
theorem run_error_contains_cause_witness :
    ∃ msg, ({ commitFull with resourceManagement := rmBad } : CommitCommand).run.err
        = some msg ∧
      strContains msg "commit error" ∧
      ({ commitFull with resourceManagement := rmBad } : CommitCommand).run.clientCalls = 1 :=
  run_error_contains_cause _ cfgFoo {} "commit error" rfl rfl rfl

/-- C5: with no configuration, an unset current context, or a current
context absent from the mapping, `Run` returns an error without
invoking any capability-client operation. -/
theorem run_fails_before_client (c : CommitCommand)
    (h : c.settings.config = none ∨
      ∃ cfg, c.settings.config = some cfg ∧
        (cfg.currentContext = "" ∨ cfg.contexts.lookup cfg.currentContext = none)) :
    c.run.err ≠ none ∧ c.run.clientCalls = 0 := by
  rcases h with h | ⟨cfg, hc, h⟩
  · simp [CommitCommand.run, h]
  · by_cases hcc : cfg.currentContext = ""
    · simp [CommitCommand.run, Config.getCurrentContext, hc, hcc]
    · rcases h with h | h
      · exact absurd h hcc
      · simp [CommitCommand.run, Config.getCurrentContext, hc, hcc, h]

/-- Witness for C5 at the test scenario with no configuration. -/
theorem run_fails_before_client_witness :
    ({ commitFull with settings := { config := none } } : CommitCommand).run.err ≠ none ∧
    ({ commitFull with settings := { config := none } } : CommitCommand).run.clientCalls = 0 :=
  run_fails_before_client _ (Or.inl rfl)

/-- A successful `SDK()` call leaves the returned handle cached. -/
theorem sdk_caches_session (f f1 : FactoryState) (s : SessionHandle) (b : Bool)
    (h : f.sdk = Except.ok (s, f1, b)) : f1.session = some s := by
  cases hs : f.session with
  | some s0 =>
    simp [FactoryState.sdk, hs] at h
    obtain ⟨h1, h2, _⟩ := h
    rw [← h2, hs, h1]
  | none =>
    cases hcfg : f.config with
    | none => simp [FactoryState.sdk, hs, hcfg] at h
    | some cfg =>
      by_cases hcc : cfg.currentContext = ""
      · simp [FactoryState.sdk, hs, hcfg, hcc] at h
      · cases hl : cfg.contexts.lookup cfg.currentContext with
        | none => simp [FactoryState.sdk, hs, hcfg, hcc, hl] at h
        | some ctx =>
          cases hce : f.constructErr with
          | some e => simp [FactoryState.sdk, hs, hcfg, hcc, hl, hce] at h
          | none =>
            simp [FactoryState.sdk, hs, hcfg, hcc, hl, hce] at h
            obtain ⟨h1, h2, _⟩ := h
            rw [← h2, ← h1]

/-- `SDK()` on a factory whose session is cached returns that handle
unchanged and opens no new session. -/
theorem sdk_returns_cached (f : FactoryState) (s : SessionHandle)
    (h : f.session = some s) : f.sdk = Except.ok (s, f, false) := by
  simp [FactoryState.sdk, h]

/-- C7: the Factory constructs the underlying session at most once per
command invocation: after any successful client derivation the session
handle is cached, and a second derivation returns a client bearing the
same handle from the same state, opening no new session. -/
theorem factory_session_constructed_once (f : FactoryState) (rm : ResourceManagement)
    (f1 : FactoryState) (h : f.resourceManagement = Except.ok (rm, f1)) :
    ∃ s, f1.session = some s ∧ rm.sessionId = s.id ∧
      f1.sdk = Except.ok (s, f1, false) ∧
      f1.resourceManagement = Except.ok (rm, f1) := by
  unfold FactoryState.resourceManagement at h
  cases hs : f.sdk with
  | error e => rw [hs] at h; simp at h
  | ok t =>
    obtain ⟨s, f2, b⟩ := t
    rw [hs] at h
    simp only [Except.ok.injEq, Prod.mk.injEq] at h
    obtain ⟨hrm, hf⟩ := h
    subst hf
    have hcache := sdk_caches_session f f2 s b hs
    have hsecond := sdk_returns_cached f2 s hcache
    refine ⟨s, hcache, ?_, hsecond, ?_⟩
    · rw [← hrm]
    · simp [FactoryState.resourceManagement, hsecond, hrm]

/-- Witness for C7: deriving a client from the `foo` factory caches
session handle 0; a second derivation reuses it. -/
theorem factory_session_constructed_once_witness :
    ∃ s, factoryCached.session = some s ∧
      ({ sessionId := 0, lifecycleCommitCC := Except.ok "" } : ResourceManagement).sessionId
        = s.id ∧
      factoryCached.sdk = Except.ok (s, factoryCached, false) ∧
      factoryCached.resourceManagement =
        Except.ok ({ sessionId := 0, lifecycleCommitCC := Except.ok "" }, factoryCached) :=
  factory_session_constructed_once factoryFoo _ _ (by decide)

/-- C9: releasing the session handle is idempotent: closing twice is
the same as closing once, closing with no session ever created is a
no-op, and closing an already-closed handle leaves it closed; all of
these are total operations that never fault. -/
theorem close_session_idempotent (f : FactoryState) (s : SessionHandle) :
    f.closeSession.closeSession = f.closeSession ∧
    (f.session = none → f.closeSession = f) ∧
    s.close.close = s.close := by
  refine ⟨?_, ?_, rfl⟩
  · cases hs : f.session with
    | none => simp [FactoryState.closeSession, hs]
    | some s0 => simp [FactoryState.closeSession, hs, SessionHandle.close]
  · intro hs
    simp [FactoryState.closeSession, hs]

/-- Witness for C9 at a factory with no session and at handle 0. -/
theorem close_session_idempotent_witness :
    factoryFoo.closeSession.closeSession = factoryFoo.closeSession ∧
    factoryFoo.closeSession = factoryFoo ∧
    ({ id := 0 } : SessionHandle).close.close = ({ id := 0 } : SessionHandle).close := by
  obtain ⟨h1, h2, h3⟩ := close_session_idempotent factoryFoo { id := 0 }
  exact ⟨h1, h2 rfl, h3⟩

/-- C8: the shutdown watcher, once the awaited signal arrives, logs the
signal before anything else it does, closes a session at most once in
every case, closes the already-cached handle exactly once when a
Factory with a cached session is present, performs no close when no
Factory is present, and merely logs (never propagates) a failure to
obtain the session. -/
theorem close_on_exit_trace (sig : String) (c : BaseCommand) :
    countCloses (c.closeOnExit sig).1 ≤ 1 ∧
    (∃ rest, (c.closeOnExit sig).1 =
      Event.logLine "awaiting signal..." :: Event.logLine sig ::
        Event.logLine "... exiting" :: rest) ∧
    (c.factory = none →
      (c.closeOnExit sig).1 =
        [Event.logLine "awaiting signal...", Event.logLine sig,
         Event.logLine "... exiting"] ∧
      (c.closeOnExit sig).2 = c) ∧
    (∀ f s, c.factory = some f → f.session = some s →
      (c.closeOnExit sig).1 =
        [Event.logLine "awaiting signal...", Event.logLine sig,
         Event.logLine "... exiting", Event.logLine "Closing SDK",
         Event.sdkClose s.id] ∧
      countCloses (c.closeOnExit sig).1 = 1 ∧
      (c.closeOnExit sig).2 = { c with factory := some f.closeSession }) ∧
    (∀ f e, c.factory = some f → f.sdk = Except.error e →
      (c.closeOnExit sig).1 =
        [Event.logLine "awaiting signal...", Event.logLine sig,
         Event.logLine "... exiting", Event.logLine e] ∧
      (c.closeOnExit sig).2 = c) := by
  cases hf : c.factory with
  | none =>
    refine ⟨?_, ⟨[], ?_⟩, fun _ => ⟨?_, ?_⟩, ?_, ?_⟩ <;>
      simp [BaseCommand.closeOnExit, hf, countCloses, Event.isClose]
  | some f =>
    cases hs : f.sdk with
    | error e =>
      refine ⟨?_, ⟨[Event.logLine e], ?_⟩, ?_, ?_, ?_⟩
      · simp [BaseCommand.closeOnExit, hf, hs, countCloses, Event.isClose]
      · simp [BaseCommand.closeOnExit, hf, hs]
      · intro h
        simp at h
      · intro f1 s hf1 hsess
        injection hf1 with hf1
        subst hf1
        rw [sdk_returns_cached _ s hsess] at hs
        simp at hs
      · intro f1 e1 hf1 hs1
        injection hf1 with hf1
        subst hf1
        rw [hs] at hs1
        injection hs1 with hs1
        subst hs1
        constructor <;> simp [BaseCommand.closeOnExit, hf, hs]
    | ok t =>
      obtain ⟨s, f1, b⟩ := t
      refine ⟨?_, ⟨[Event.logLine "Closing SDK", Event.sdkClose s.id], ?_⟩, ?_, ?_, ?_⟩
      · simp [BaseCommand.closeOnExit, hf, hs, countCloses, Event.isClose]
      · simp [BaseCommand.closeOnExit, hf, hs]
      · intro h
        simp at h
      · intro f2 s2 hf2 hsess
        injection hf2 with hf2
        subst hf2
        refine ⟨?_, ?_, ?_⟩ <;>
          simp [BaseCommand.closeOnExit, hf, sdk_returns_cached _ s2 hsess,
            countCloses, Event.isClose]
      · intro f2 e2 hf2 hs2
        injection hf2 with hf2
        subst hf2
        rw [hs] at hs2
        simp at hs2

/-- Witness for C8: on an interrupt signal, a command whose factory
holds cached session 0 logs the signal, then closes exactly that
session exactly once. -/
theorem close_on_exit_trace_witness :
    (baseCached.closeOnExit "interrupt").1 =
      [Event.logLine "awaiting signal...", Event.logLine "interrupt",
       Event.logLine "... exiting", Event.logLine "Closing SDK",
       Event.sdkClose 0] ∧
    countCloses (baseCached.closeOnExit "interrupt").1 = 1 ∧
    (baseCached.closeOnExit "interrupt").2 =
      { baseCached with factory := some factoryCached.closeSession } :=
  (close_on_exit_trace "interrupt" baseCached).2.2.2.1 factoryCached { id := 0 }
    rfl (by decide)

end FabricCLI
